import Mathlib

/-!
Verification of the pipeline-storage core of nova-renderer
(src/renderer/pipeline_storage.cpp), shallowly embedded in Lean 4.

The reflection layer (SPIRV-Cross) is an external collaborator: a shader is
represented directly by its reflection data (resource lists per category and
stage inputs, each resource carrying its decorations and its looked-up type).
The device abstraction and the render-pass registry are parameters of the
build operation, bundled in an `Env` structure.
-/

/-- Base scalar kind of a reflected SPIR-V type, mirroring the
`SPIRType::BaseType` constructors handled by `to_rhi_vertex_format`. -/
inductive BaseType
  | Unknown
  | Void
  | Boolean
  | SByte
  | UByte
  | Short
  | UShort
  | Int
  | UInt
  | Int64
  | UInt64
  | AtomicCounter
  | Half
  | Float
  | Double
  | Struct
  | Image
  | SampledImage
  | Sampler
  | AccelerationStructureNV
  | ControlPointArray
  | Char
  deriving DecidableEq

/-- A reflected SPIR-V type: base kind, vector size, and array dimensions
(`spirv_type.basetype`, `spirv_type.vecsize`, `type_information.array`). -/
structure SPIRType where
  basetype : BaseType
  vecsize : Nat
  array : List Nat
  deriving DecidableEq

/-- One reflected resource (`spirv_cross::Resource` together with its
decorations and looked-up type): name, descriptor set, binding slot, type. -/
structure ReflectedResource where
  name : String
  set : Nat
  binding : Nat
  type : SPIRType
  deriving DecidableEq

/-- Reflection data of one shader module, as exposed by
`CompilerGLSL::get_shader_resources()`: the five resource categories walked by
`get_shader_module_descriptors`, plus the stage inputs used by
`get_vertex_fields`. -/
structure ReflectedShader where
  separate_images : List ReflectedResource
  separate_samplers : List ReflectedResource
  sampled_images : List ReflectedResource
  uniform_buffers : List ReflectedResource
  storage_buffers : List ReflectedResource
  stage_inputs : List ReflectedResource
  deriving DecidableEq

/-- Vertex-field format. Modelled from the spec: the enumeration is declared
in the rhi headers, which are not among the sources here; the spec fixes it as
the closed set Uint, Float2, Float3, Float4, Invalid, with the
value-initialized (`return {};`) value being `Invalid`, the outcome the spec
assigns to every unsupported type. -/
inductive VertexFieldFormat
  | Uint
  | Float2
  | Float3
  | Float4
  | Invalid
  deriving DecidableEq

/-- A named vertex input attribute (`rhi::VertexField`). -/
structure VertexField where
  name : String
  format : VertexFieldFormat
  deriving DecidableEq

/-- Resource kind of a binding (`rhi::DescriptorType` members used by
`get_shader_module_descriptors`). -/
inductive DescriptorType
  | Texture
  | Sampler
  | CombinedImageSampler
  | UniformBuffer
  | StorageBuffer
  deriving DecidableEq

/-- Shader-stage bits. Modelled from the spec: `rhi::ShaderStage` is declared
in the rhi headers, not among the sources here; the spec describes the stage
mask as a set of stages combined with bitwise OR, so each stage is one bit. -/
def ShaderStage.Vertex : Nat := 1

/-- Tessellation-control stage bit (see `ShaderStage.Vertex`). -/
def ShaderStage.TessellationControl : Nat := 2

/-- Tessellation-evaluation stage bit (see `ShaderStage.Vertex`). -/
def ShaderStage.TessellationEvaluation : Nat := 4

/-- Geometry stage bit (see `ShaderStage.Vertex`). -/
def ShaderStage.Geometry : Nat := 8

/-- Fragment stage bit (see `ShaderStage.Vertex`). -/
def ShaderStage.Fragment : Nat := 16

/-- Embeds `rhi::ResourceBindingDescription`: set, binding slot, resource kind,
element count, unbounded-array flag, owning stage mask. -/
structure ResourceBindingDescription where
  set : Nat
  binding : Nat
  type : DescriptorType
  count : Nat
  is_unbounded : Bool
  stages : Nat
  deriving DecidableEq

/-- Modelled from the spec: the equality operator of
`rhi::ResourceBindingDescription` is declared in the rhi headers, which are
not among the sources here. Per the spec, equality is structural over
set / binding / kind / count / unbounded, with the stage mask excluded so that
merging can widen it. -/
def ResourceBindingDescription.structEq (a b : ResourceBindingDescription) : Prop :=
  a.set = b.set ∧ a.binding = b.binding ∧ a.type = b.type ∧
    a.count = b.count ∧ a.is_unbounded = b.is_unbounded

instance (a b : ResourceBindingDescription) : Decidable (a.structEq b) := by
  unfold ResourceBindingDescription.structEq
  exact inferInstance

/-- The name-keyed binding table (`rx::map<rx::string, ResourceBindingDescription>`),
embedded as an association list with unique keys. -/
abbrev BindingTable := List (String × ResourceBindingDescription)

/-- Embeds `rx::map::find`: the value stored under the first (unique) occurrence of a
key, or none. -/
def mapFind? {α : Type} (m : List (String × α)) (k : String) : Option α :=
  match m with
  | [] => none
  | (k', v) :: rest => if k' = k then some v else mapFind? rest k

/-- Embeds `rx::map::insert` and the write-through-`find`-pointer update: replace the entry of an
existing key in place, or append a fresh entry. Modelled from the spec: the rx
container library is external; the spec fixes the map as a unique-key mapping
whose entries are overwritten on re-insert. -/
def mapUpdate {α : Type} (m : List (String × α)) (k : String) (v : α) :
    List (String × α) :=
  match m with
  | [] => [(k, v)]
  | (k', v') :: rest => if k' = k then (k, v) :: rest else (k', v') :: mapUpdate rest k v

/-- Embeds `to_rhi_vertex_format`: translate a reflected type into a vertex-field
format. Unsigned 32-bit → Uint; 32-bit float of vector size 2/3/4 →
Float2/3/4; everything else (including other float widths) falls through to
`Invalid` after a diagnostic. -/
def to_rhi_vertex_format (spirv_type : SPIRType) : VertexFieldFormat :=
  match spirv_type.basetype with
  | BaseType.UInt => VertexFieldFormat.Uint
  | BaseType.Float =>
    match spirv_type.vecsize with
    | 2 => VertexFieldFormat.Float2
    | 3 => VertexFieldFormat.Float3
    | 4 => VertexFieldFormat.Float4
    | _ => VertexFieldFormat.Invalid
  | _ => VertexFieldFormat.Invalid

/-- Embeds `get_vertex_fields`: reflect the vertex shader's stage inputs in order and
emplace one `VertexField` per input, with its name and mapped format. -/
def get_vertex_fields (vertex_shader : ReflectedShader) : List VertexField :=
  vertex_shader.stage_inputs.foldl
    (fun vertex_fields spirv_field =>
      vertex_fields ++ [⟨spirv_field.name, to_rhi_vertex_format spirv_field.type⟩])
    []

/-- The descriptor built by the first half of `add_resource_to_bindings`
(lines 243-258): set and binding from the decorations, kind from the category,
count 1 and unbounded false unless the type carries array dimensions, in which
case count is the first dimension and the binding is marked unbounded. -/
def make_binding (shader_stage : Nat) (resource : ReflectedResource)
    (type : DescriptorType) : ResourceBindingDescription :=
  let new_binding : ResourceBindingDescription :=
    { set := resource.set
      binding := resource.binding
      type := type
      count := 1
      is_unbounded := false
      stages := shader_stage }
  match resource.type.array with
  | [] => new_binding
  | n :: _ => { new_binding with count := n, is_unbounded := true }

/-- Embeds `add_resource_to_bindings` (lines 262-279): insert-or-merge the descriptor
into the table under the resource's name. A structurally different existing
entry triggers the conflict diagnostic (the Bool of the result) and leaves the
table untouched; a structurally equal one has the stage OR-ed into its mask; an
absent name gets a fresh entry. -/
def add_resource_to_bindings (bindings : BindingTable) (shader_stage : Nat)
    (resource : ReflectedResource) (type : DescriptorType) : BindingTable × Bool :=
  let new_binding := make_binding shader_stage resource type
  match mapFind? bindings resource.name with
  | some existing_binding =>
    if ¬ existing_binding.structEq new_binding then
      (bindings, true)
    else
      (mapUpdate bindings resource.name
        { existing_binding with stages := existing_binding.stages ||| shader_stage },
       false)
  | none => (bindings ++ [(resource.name, new_binding)], false)

/-- One stage's shader entry of a `PipelineCreateInfo` (`ShaderSource`): the
compiled bytecode, represented by its reflection data. -/
structure ShaderSource where
  source : ReflectedShader
  deriving DecidableEq

/-- Embeds `shaderpack::PipelineCreateInfo`: the fields read by the build path —
pipeline name, target render-pass name, the mandatory vertex shader and the
four optional stages. -/
structure PipelineCreateInfo where
  name : String
  pass : String
  vertex_shader : ShaderSource
  tessellation_control_shader : Option ShaderSource
  tessellation_evaluation_shader : Option ShaderSource
  geometry_shader : Option ShaderSource
  fragment_shader : Option ShaderSource
  deriving DecidableEq

/-- Embeds `shaderpack::TextureAttachmentInfo`, opaque to this core. -/
structure TextureAttachmentInfo where
  name : String
  deriving DecidableEq

/-- The data of a render pass's registered metadata: its color attachments and
optional depth attachment (`rp_create->data.texture_outputs`,
`rp_create->data.depth_texture`). -/
structure RenderpassMetadata where
  texture_outputs : List TextureAttachmentInfo
  depth_texture : Option TextureAttachmentInfo

/-- A backend pipeline-interface object: an opaque backend handle plus the
`vertex_fields` member this core fills in after creation. -/
structure PipelineInterface where
  handle : Nat
  vertex_fields : List VertexField
  deriving DecidableEq

/-- Opaque backend pipeline handle (`rhi::Pipeline*`). -/
abbrev RhiPipeline := Nat

/-- Embeds `renderer::Pipeline`: backend pipeline handle plus its interface. -/
structure Pipeline where
  pipeline : RhiPipeline
  pipeline_interface : PipelineInterface
  deriving DecidableEq

/-- Embeds `PipelineMetadata`: the original create info of a built pipeline. -/
structure PipelineMetadata where
  data : PipelineCreateInfo
  deriving DecidableEq

/-- Embeds `PipelineReturn`: the pair a successful `create_graphics_pipeline` yields. -/
structure PipelineReturn where
  pipeline : Pipeline
  metadata : PipelineMetadata

/-- The external collaborators of `PipelineStorage`: the render-pass registry
(`renderer.get_renderpass_metadata`) and the device abstraction
(`device.create_pipeline_interface`, `device.create_pipeline`). -/
structure Env where
  renderpass_metadata : String → Option RenderpassMetadata
  device_create_pipeline_interface :
    BindingTable → List TextureAttachmentInfo → Option TextureAttachmentInfo →
      Except String PipelineInterface
  device_create_pipeline : PipelineInterface → PipelineCreateInfo → Except String RhiPipeline

/-- A call made to the device abstraction, recorded so that theorems can state
which device entry points a build attempt reached. -/
inductive DeviceCall
  | createPipelineInterface
  | createPipeline
  deriving DecidableEq

/-- The two cache maps of `PipelineStorage`: pipeline name → Pipeline and
pipeline name → PipelineMetadata. -/
structure PipelineStorage where
  pipelines : List (String × Pipeline)
  pipeline_metadatas : List (String × PipelineMetadata)
  deriving DecidableEq

/-- A freshly constructed `PipelineStorage`: both maps empty. -/
def PipelineStorage.empty : PipelineStorage := ⟨[], []⟩

/-- Embeds `get_shader_module_descriptors`: reflect one stage's bytecode and
insert-or-merge a descriptor for every resource of the five categories, each
category with its fixed kind. -/
def get_shader_module_descriptors (spirv : ReflectedShader) (shader_stage : Nat)
    (bindings : BindingTable) : BindingTable :=
  let b := spirv.separate_images.foldl
    (fun b r => (add_resource_to_bindings b shader_stage r DescriptorType.Texture).1) bindings
  let b := spirv.separate_samplers.foldl
    (fun b r => (add_resource_to_bindings b shader_stage r DescriptorType.Sampler).1) b
  let b := spirv.sampled_images.foldl
    (fun b r => (add_resource_to_bindings b shader_stage r DescriptorType.CombinedImageSampler).1) b
  let b := spirv.uniform_buffers.foldl
    (fun b r => (add_resource_to_bindings b shader_stage r DescriptorType.UniformBuffer).1) b
  spirv.storage_buffers.foldl
    (fun b r => (add_resource_to_bindings b shader_stage r DescriptorType.StorageBuffer).1) b

/-- Embeds `create_pipeline_interface`: accumulate the binding table over the vertex
stage and each present optional stage, delegate to the device abstraction, and
on success attach the derived vertex fields to the returned interface. The
second component records the device calls made. -/
def create_pipeline_interface (env : Env) (pipeline_create_info : PipelineCreateInfo)
    (color_attachments : List TextureAttachmentInfo)
    (depth_texture : Option TextureAttachmentInfo) :
    Except String PipelineInterface × List DeviceCall :=
  let bindings : BindingTable := []
  let bindings := get_shader_module_descriptors pipeline_create_info.vertex_shader.source
    ShaderStage.Vertex bindings
  let bindings := match pipeline_create_info.tessellation_control_shader with
    | some s => get_shader_module_descriptors s.source ShaderStage.TessellationControl bindings
    | none => bindings
  let bindings := match pipeline_create_info.tessellation_evaluation_shader with
    | some s => get_shader_module_descriptors s.source ShaderStage.TessellationEvaluation bindings
    | none => bindings
  let bindings := match pipeline_create_info.geometry_shader with
    | some s => get_shader_module_descriptors s.source ShaderStage.Geometry bindings
    | none => bindings
  let bindings := match pipeline_create_info.fragment_shader with
    | some s => get_shader_module_descriptors s.source ShaderStage.Fragment bindings
    | none => bindings
  match env.device_create_pipeline_interface bindings color_attachments depth_texture with
  | Except.ok pipeline_interface =>
    (Except.ok { pipeline_interface with
        vertex_fields := get_vertex_fields pipeline_create_info.vertex_shader.source },
     [DeviceCall.createPipelineInterface])
  | Except.error e => (Except.error e, [DeviceCall.createPipelineInterface])

/-- Embeds `create_graphics_pipeline`: ask the device for the backend pipeline object;
on success return the pipeline together with metadata holding the original
create info, on failure a name-qualified error. -/
def create_graphics_pipeline (env : Env) (pipeline_interface : PipelineInterface)
    (pipeline_create_info : PipelineCreateInfo) :
    Except String PipelineReturn × List DeviceCall :=
  let metadata : PipelineMetadata := { data := pipeline_create_info }
  match env.device_create_pipeline pipeline_interface pipeline_create_info with
  | Except.ok rhi_pipeline =>
    (Except.ok { pipeline := { pipeline := rhi_pipeline, pipeline_interface := pipeline_interface },
                 metadata := metadata },
     [DeviceCall.createPipeline])
  | Except.error e =>
    (Except.error ("Could not create pipeline " ++ pipeline_create_info.name ++ ":" ++ e),
     [DeviceCall.createPipeline])

/-- Embeds `create_pipeline` (the public `build`): resolve render-pass metadata (hard
failure if absent, before any device call), build the interface, allocate the
backend pipeline, and only on full success overwrite both cache maps. Returns
the success flag, the resulting storage, and the device calls made. -/
def create_pipeline (env : Env) (st : PipelineStorage) (create_info : PipelineCreateInfo) :
    Bool × PipelineStorage × List DeviceCall :=
  match env.renderpass_metadata create_info.pass with
  | none => (false, st, [])
  | some rp_create =>
    match create_pipeline_interface env create_info rp_create.texture_outputs
        rp_create.depth_texture with
    | (Except.error _, calls1) => (false, st, calls1)
    | (Except.ok pi, calls1) =>
      match create_graphics_pipeline env pi create_info with
      | (Except.ok pr, calls2) =>
        (true,
         { pipelines := mapUpdate st.pipelines create_info.name pr.pipeline
           pipeline_metadatas := mapUpdate st.pipeline_metadatas create_info.name pr.metadata },
         calls1 ++ calls2)
      | (Except.error _, calls2) => (false, st, calls1 ++ calls2)

/-- Embeds `get_pipeline` (the public `lookup`): the cached pipeline under an exact
name match, or none. -/
def get_pipeline (st : PipelineStorage) (pipeline_name : String) : Option Pipeline :=
  mapFind? st.pipelines pipeline_name

/-- The pipeline a successful build of `create_info` against `env` stores:
computed from the environment and the create info alone, independently of the
storage the build starts from. -/
def built_pipeline (env : Env) (create_info : PipelineCreateInfo) : Option Pipeline :=
  match env.renderpass_metadata create_info.pass with
  | none => none
  | some rp_create =>
    match (create_pipeline_interface env create_info rp_create.texture_outputs
        rp_create.depth_texture).1 with
    | Except.error _ => none
    | Except.ok pi =>
      match (create_graphics_pipeline env pi create_info).1 with
      | Except.error _ => none
      | Except.ok pr => some pr.pipeline

theorem foldl_push_eq_append_map {α β : Type} (g : α → β) (l : List α) (init : List β) :
    l.foldl (fun acc f => acc ++ [g f]) init = init ++ l.map g := by
  induction l generalizing init with
  | nil => simp
  | cons a l ih => simp [ih]

theorem mapFind?_mapUpdate_self {α : Type} (m : List (String × α)) (k : String) (v : α) :
    mapFind? (mapUpdate m k v) k = some v := by
  induction m with
  | nil => simp [mapUpdate, mapFind?]
  | cons p rest ih =>
    obtain ⟨k', v'⟩ := p
    by_cases h : k' = k
    · simp [mapUpdate, h, mapFind?]
    · simp [mapUpdate, h, mapFind?, ih]

theorem filter_key_of_not_mem {α : Type} (m : List (String × α)) (k : String)
    (h : k ∉ m.map Prod.fst) : m.filter (fun p => p.1 == k) = [] := by
  induction m with
  | nil => rfl
  | cons p rest ih =>
    simp only [List.map_cons, List.mem_cons] at h
    push_neg at h
    rw [List.filter_cons]
    have hpk : (p.1 == k) = false := by
      simp only [beq_eq_false_iff_ne]
      exact fun hc => h.1 hc.symm
    rw [hpk]
    exact ih h.2

theorem filter_mapUpdate_length {α : Type} (m : List (String × α)) (k : String) (v : α)
    (hnodup : (m.map Prod.fst).Nodup) :
    ((mapUpdate m k v).filter (fun p => p.1 == k)).length = 1 := by
  induction m with
  | nil => simp [mapUpdate]
  | cons p rest ih =>
    obtain ⟨k', v'⟩ := p
    simp only [List.map_cons, List.nodup_cons] at hnodup
    by_cases h : k' = k
    · subst h
      simp [mapUpdate, filter_key_of_not_mem rest k' hnodup.1]
    · simp only [mapUpdate, if_neg h]
      rw [List.filter_cons]
      have hpk : ((k', v').1 == k) = false := by
        simp only [beq_eq_false_iff_ne]
        exact h
      simp only [hpk, Bool.false_eq_true, if_false]
      exact ih hnodup.2

theorem create_pipeline_success_effect (env : Env) (st : PipelineStorage)
    (create_info : PipelineCreateInfo)
    (h : (create_pipeline env st create_info).1 = true) :
    ∃ p : Pipeline, built_pipeline env create_info = some p ∧
      mapFind? ((create_pipeline env st create_info).2.1).pipelines create_info.name = some p ∧
      mapFind? ((create_pipeline env st create_info).2.1).pipeline_metadatas create_info.name =
        some { data := create_info } := by
  unfold create_pipeline at h ⊢
  unfold built_pipeline
  rcases hm : env.renderpass_metadata create_info.pass with _ | rp
  · rw [hm] at h
    simp at h
  · rw [hm] at h
    dsimp only at h ⊢
    rcases hpi : create_pipeline_interface env create_info rp.texture_outputs rp.depth_texture
      with ⟨res, calls1⟩
    rw [hpi] at h
    cases res with
    | error e => simp at h
    | ok pi =>
      dsimp only at h ⊢
      unfold create_graphics_pipeline at h ⊢
      rcases hdp : env.device_create_pipeline pi create_info with e | rhi
      · rw [hdp] at h
        simp at h
      · rw [hdp] at h
        dsimp only at h ⊢
        exact ⟨⟨rhi, pi⟩, rfl, mapFind?_mapUpdate_self _ _ _, mapFind?_mapUpdate_self _ _ _⟩

/-- C8: when the requested render pass has no registered metadata, `build`
fails immediately: it returns false, leaves the storage untouched, and makes
no call to the device abstraction. -/
theorem create_pipeline_missing_metadata (env : Env) (st : PipelineStorage)
    (create_info : PipelineCreateInfo)
    (h : env.renderpass_metadata create_info.pass = none) :
    create_pipeline env st create_info = (false, st, []) := by
  unfold create_pipeline
  rw [h]

/-- A render-pass registry with no passes, a device whose entry points are
never expected to be reached. -/
def sampleEnvNoPass : Env :=
  { renderpass_metadata := fun _ => none
    device_create_pipeline_interface := fun _ _ _ => Except.error "unreachable"
    device_create_pipeline := fun _ _ => Except.error "unreachable" }

/-- A shader whose reflection data is empty. -/
def sampleShader : ShaderSource := ⟨⟨[], [], [], [], [], []⟩⟩

/-- A minimal create info: vertex stage only. -/
def sampleCreateInfo1 : PipelineCreateInfo :=
  ⟨"pipe", "main_pass", sampleShader, none, none, none, none⟩

/-- The same pipeline name with a differing create info: a fragment stage is
also present. -/
def sampleCreateInfo2 : PipelineCreateInfo :=
  ⟨"pipe", "main_pass", sampleShader, none, none, none, some sampleShader⟩

/-- An environment where registry and device always succeed. -/
def sampleEnvOk : Env :=
  { renderpass_metadata := fun _ => some ⟨[⟨"backbuffer"⟩], none⟩
    device_create_pipeline_interface := fun _ _ _ => Except.ok ⟨0, []⟩
    device_create_pipeline := fun _ _ => Except.ok 7 }

/-- Witness for C8 on an empty registry. -/
theorem create_pipeline_missing_metadata_witness :
    create_pipeline sampleEnvNoPass PipelineStorage.empty sampleCreateInfo1 =
      (false, PipelineStorage.empty, []) :=
  create_pipeline_missing_metadata sampleEnvNoPass PipelineStorage.empty sampleCreateInfo1 rfl

/-- C9: a build attempt that fails at any step leaves both cache maps exactly
as they were, every lookup is unaffected, and on a fresh storage every lookup
is empty — entries appear only through a fully successful build. -/
theorem create_pipeline_failure_leaves_maps (env : Env) (st : PipelineStorage)
    (create_info : PipelineCreateInfo)
    (h : (create_pipeline env st create_info).1 = false) :
    (create_pipeline env st create_info).2.1 = st ∧
    (∀ name, get_pipeline (create_pipeline env st create_info).2.1 name =
      get_pipeline st name) ∧
    (∀ name, get_pipeline PipelineStorage.empty name = none) := by
  have hst : (create_pipeline env st create_info).2.1 = st := by
    unfold create_pipeline at h ⊢
    rcases hm : env.renderpass_metadata create_info.pass with _ | rp
    · rw [hm] at h
    · rw [hm] at h
      dsimp only at h ⊢
      rcases hpi : create_pipeline_interface env create_info rp.texture_outputs rp.depth_texture
        with ⟨res, calls1⟩
      rw [hpi] at h
      cases res with
      | error e => rfl
      | ok pi =>
        dsimp only at h ⊢
        rcases hgp : create_graphics_pipeline env pi create_info with ⟨res2, calls2⟩
        rw [hgp] at h
        cases res2 with
        | error e => rfl
        | ok pr => simp at h
  exact ⟨hst, fun name => by rw [hst], fun name => rfl⟩

/-- Witness for C9 on the failing build of `sampleEnvNoPass`. -/
theorem create_pipeline_failure_leaves_maps_witness :
    (create_pipeline sampleEnvNoPass PipelineStorage.empty sampleCreateInfo1).2.1 =
      PipelineStorage.empty ∧
    get_pipeline (create_pipeline sampleEnvNoPass PipelineStorage.empty sampleCreateInfo1).2.1
      "never_built" = get_pipeline PipelineStorage.empty "never_built" ∧
    get_pipeline PipelineStorage.empty "never_built" = none := by
  have h := create_pipeline_failure_leaves_maps sampleEnvNoPass PipelineStorage.empty
    sampleCreateInfo1 rfl
  exact ⟨h.1, h.2.1 "never_built", h.2.2 "never_built"⟩

/-- C3: after two successful builds of the same pipeline name, the maps hold
the pipeline and metadata produced by the second build — the first build's
entries (present in between) are overwritten, and when the create infos
differ, the stored metadata is not the first one. -/
theorem rebuild_overwrites_cache (env1 env2 : Env) (st0 : PipelineStorage)
    (ci1 ci2 : PipelineCreateInfo) (hname : ci2.name = ci1.name)
    (h1 : (create_pipeline env1 st0 ci1).1 = true)
    (h2 : (create_pipeline env2 (create_pipeline env1 st0 ci1).2.1 ci2).1 = true) :
    mapFind? ((create_pipeline env1 st0 ci1).2.1).pipeline_metadatas ci1.name =
      some { data := ci1 } ∧
    get_pipeline (create_pipeline env2 (create_pipeline env1 st0 ci1).2.1 ci2).2.1 ci1.name =
      built_pipeline env2 ci2 ∧
    mapFind? ((create_pipeline env2 (create_pipeline env1 st0 ci1).2.1 ci2).2.1).pipeline_metadatas
      ci1.name = some { data := ci2 } ∧
    (ci1 ≠ ci2 →
      mapFind?
        ((create_pipeline env2 (create_pipeline env1 st0 ci1).2.1 ci2).2.1).pipeline_metadatas
        ci1.name ≠ some { data := ci1 }) := by
  obtain ⟨p1, hbp1, hfindp1, hfindm1⟩ := create_pipeline_success_effect env1 st0 ci1 h1
  obtain ⟨p2, hbp2, hfindp2, hfindm2⟩ :=
    create_pipeline_success_effect env2 (create_pipeline env1 st0 ci1).2.1 ci2 h2
  rw [hname] at hfindp2 hfindm2
  refine ⟨hfindm1, ?_, hfindm2, ?_⟩
  · unfold get_pipeline
    rw [hfindp2, hbp2]
  · intro hne heq
    rw [hfindm2] at heq
    simp only [Option.some.injEq, PipelineMetadata.mk.injEq] at heq
    exact hne heq.symm

/-- Witness for C3: two successful builds of the pipeline "pipe", the second
with a fragment stage added. -/
theorem rebuild_overwrites_cache_witness :
    mapFind?
      ((create_pipeline sampleEnvOk PipelineStorage.empty sampleCreateInfo1).2.1).pipeline_metadatas
      "pipe" = some { data := sampleCreateInfo1 } ∧
    get_pipeline
      (create_pipeline sampleEnvOk
        (create_pipeline sampleEnvOk PipelineStorage.empty sampleCreateInfo1).2.1
        sampleCreateInfo2).2.1 "pipe" = built_pipeline sampleEnvOk sampleCreateInfo2 ∧
    mapFind?
      ((create_pipeline sampleEnvOk
        (create_pipeline sampleEnvOk PipelineStorage.empty sampleCreateInfo1).2.1
        sampleCreateInfo2).2.1).pipeline_metadatas "pipe" = some { data := sampleCreateInfo2 } ∧
    mapFind?
      ((create_pipeline sampleEnvOk
        (create_pipeline sampleEnvOk PipelineStorage.empty sampleCreateInfo1).2.1
        sampleCreateInfo2).2.1).pipeline_metadatas "pipe" ≠ some { data := sampleCreateInfo1 } := by
  have h := rebuild_overwrites_cache sampleEnvOk sampleEnvOk PipelineStorage.empty
    sampleCreateInfo1 sampleCreateInfo2 rfl (by decide) (by decide)
  exact ⟨h.1, h.2.1, h.2.2.1, h.2.2.2 (by decide)⟩

/-- C1: inserting a descriptor under a name whose existing entry is
structurally equal to it (ignoring the stage mask) leaves a single entry for
that name whose stage mask is the bitwise OR of the existing mask and the new
descriptor's stage, with every other field unchanged. -/
theorem add_resource_merges_stage_mask (bindings : BindingTable) (shader_stage : Nat)
    (resource : ReflectedResource) (type : DescriptorType)
    (existing : ResourceBindingDescription)
    (hnodup : (bindings.map Prod.fst).Nodup)
    (hfind : mapFind? bindings resource.name = some existing)
    (heq : existing.structEq (make_binding shader_stage resource type)) :
    mapFind? (add_resource_to_bindings bindings shader_stage resource type).1 resource.name =
      some { existing with stages := existing.stages ||| shader_stage } ∧
    (((add_resource_to_bindings bindings shader_stage resource type).1).filter
      (fun p => p.1 == resource.name)).length = 1 := by
  have hres : add_resource_to_bindings bindings shader_stage resource type =
      (mapUpdate bindings resource.name
        { existing with stages := existing.stages ||| shader_stage }, false) := by
    unfold add_resource_to_bindings
    rw [hfind]
    dsimp only
    rw [if_neg (not_not_intro heq)]
  rw [hres]
  exact ⟨mapFind?_mapUpdate_self _ _ _, filter_mapUpdate_length _ _ _ hnodup⟩

/-- Witness for C1: a uniform buffer present for the vertex stage (mask 1) and
re-inserted identically for the fragment stage (mask 16) is merged into one
entry with mask 1 ||| 16. -/
theorem add_resource_merges_stage_mask_witness :
    mapFind? (add_resource_to_bindings
        [("ubo", ⟨0, 1, DescriptorType.UniformBuffer, 1, false, 1⟩)] 16
        ⟨"ubo", 0, 1, ⟨BaseType.Struct, 1, []⟩⟩ DescriptorType.UniformBuffer).1 "ubo" =
      some ⟨0, 1, DescriptorType.UniformBuffer, 1, false, 1 ||| 16⟩ ∧
    ((add_resource_to_bindings
        [("ubo", ⟨0, 1, DescriptorType.UniformBuffer, 1, false, 1⟩)] 16
        ⟨"ubo", 0, 1, ⟨BaseType.Struct, 1, []⟩⟩ DescriptorType.UniformBuffer).1.filter
      (fun p => p.1 == "ubo")).length = 1 :=
  add_resource_merges_stage_mask
    [("ubo", ⟨0, 1, DescriptorType.UniformBuffer, 1, false, 1⟩)] 16
    ⟨"ubo", 0, 1, ⟨BaseType.Struct, 1, []⟩⟩ DescriptorType.UniformBuffer
    ⟨0, 1, DescriptorType.UniformBuffer, 1, false, 1⟩
    (by decide) (by decide) (by decide)

/-- C2: inserting a descriptor under a name whose existing entry is
structurally different emits the conflict diagnostic, leaves the table
unchanged (no failure is signalled), and the name still maps to the
first-seen descriptor. -/
theorem add_resource_conflict_keeps_first (bindings : BindingTable) (shader_stage : Nat)
    (resource : ReflectedResource) (type : DescriptorType)
    (existing : ResourceBindingDescription)
    (hfind : mapFind? bindings resource.name = some existing)
    (hne : ¬ existing.structEq (make_binding shader_stage resource type)) :
    (add_resource_to_bindings bindings shader_stage resource type).1 = bindings ∧
    (add_resource_to_bindings bindings shader_stage resource type).2 = true ∧
    mapFind? (add_resource_to_bindings bindings shader_stage resource type).1 resource.name =
      some existing := by
  have hres : add_resource_to_bindings bindings shader_stage resource type = (bindings, true) := by
    unfold add_resource_to_bindings
    rw [hfind]
    dsimp only
    rw [if_pos hne]
  rw [hres]
  exact ⟨rfl, rfl, hfind⟩

/-- Witness for C2: re-inserting the uniform buffer under the same name but
with binding slot 2 instead of 1 raises the conflict flag and keeps the
first-seen descriptor. -/
theorem add_resource_conflict_keeps_first_witness :
    (add_resource_to_bindings
        [("ubo", ⟨0, 1, DescriptorType.UniformBuffer, 1, false, 1⟩)] 16
        ⟨"ubo", 0, 2, ⟨BaseType.Struct, 1, []⟩⟩ DescriptorType.UniformBuffer).1 =
      [("ubo", ⟨0, 1, DescriptorType.UniformBuffer, 1, false, 1⟩)] ∧
    (add_resource_to_bindings
        [("ubo", ⟨0, 1, DescriptorType.UniformBuffer, 1, false, 1⟩)] 16
        ⟨"ubo", 0, 2, ⟨BaseType.Struct, 1, []⟩⟩ DescriptorType.UniformBuffer).2 = true ∧
    mapFind? (add_resource_to_bindings
        [("ubo", ⟨0, 1, DescriptorType.UniformBuffer, 1, false, 1⟩)] 16
        ⟨"ubo", 0, 2, ⟨BaseType.Struct, 1, []⟩⟩ DescriptorType.UniformBuffer).1 "ubo" =
      some ⟨0, 1, DescriptorType.UniformBuffer, 1, false, 1⟩ :=
  add_resource_conflict_keeps_first
    [("ubo", ⟨0, 1, DescriptorType.UniformBuffer, 1, false, 1⟩)] 16
    ⟨"ubo", 0, 2, ⟨BaseType.Struct, 1, []⟩⟩ DescriptorType.UniformBuffer
    ⟨0, 1, DescriptorType.UniformBuffer, 1, false, 1⟩
    (by decide) (by decide)

/-- C10: a reflected type whose base type is unsigned 32-bit integer maps to
`Uint` no matter what its vector size is: the mapping inspects only the base
type for unsigned integers. -/
theorem to_rhi_vertex_format_uint (t : SPIRType) (h : t.basetype = BaseType.UInt) :
    to_rhi_vertex_format t = VertexFieldFormat.Uint := by
  obtain ⟨bt, vs, arr⟩ := t
  cases h
  rfl

/-- Witness for C10 at a uvec3-shaped input (vector size 3). -/
theorem to_rhi_vertex_format_uint_witness :
    to_rhi_vertex_format ⟨BaseType.UInt, 3, []⟩ = VertexFieldFormat.Uint :=
  to_rhi_vertex_format_uint ⟨BaseType.UInt, 3, []⟩ rfl

/-- C6: a 32-bit float reflected type maps to Float2/Float3/Float4 when the
vector size is 2/3/4, and to Invalid for every other vector size. -/
theorem to_rhi_vertex_format_float (t : SPIRType) (h : t.basetype = BaseType.Float) :
    (t.vecsize = 2 → to_rhi_vertex_format t = VertexFieldFormat.Float2) ∧
    (t.vecsize = 3 → to_rhi_vertex_format t = VertexFieldFormat.Float3) ∧
    (t.vecsize = 4 → to_rhi_vertex_format t = VertexFieldFormat.Float4) ∧
    (t.vecsize ≠ 2 → t.vecsize ≠ 3 → t.vecsize ≠ 4 →
      to_rhi_vertex_format t = VertexFieldFormat.Invalid) := by
  obtain ⟨bt, vs, arr⟩ := t
  cases h
  refine ⟨?_, ?_, ?_, ?_⟩
  · rintro rfl; rfl
  · rintro rfl; rfl
  · rintro rfl; rfl
  · intro h2 h3 h4
    match vs, h2, h3, h4 with
    | 0, _, _, _ => rfl
    | 1, _, _, _ => rfl
    | 2, h2, _, _ => exact absurd rfl h2
    | 3, _, h3, _ => exact absurd rfl h3
    | 4, _, _, h4 => exact absurd rfl h4
    | n + 5, _, _, _ => rfl

/-- Witness for C6 at float vector sizes 4 and 1. -/
theorem to_rhi_vertex_format_float_witness :
    to_rhi_vertex_format ⟨BaseType.Float, 4, []⟩ = VertexFieldFormat.Float4 ∧
    to_rhi_vertex_format ⟨BaseType.Float, 1, []⟩ = VertexFieldFormat.Invalid := by
  constructor
  · exact (to_rhi_vertex_format_float ⟨BaseType.Float, 4, []⟩ rfl).2.2.1 rfl
  · exact (to_rhi_vertex_format_float ⟨BaseType.Float, 1, []⟩ rfl).2.2.2
      (by decide) (by decide) (by decide)

/-- C7: a reflected type whose base type is neither 32-bit float nor unsigned
32-bit integer maps to Invalid, whatever the rest of the type is. -/
theorem to_rhi_vertex_format_other_invalid (t : SPIRType)
    (h1 : t.basetype ≠ BaseType.Float) (h2 : t.basetype ≠ BaseType.UInt) :
    to_rhi_vertex_format t = VertexFieldFormat.Invalid := by
  obtain ⟨bt, vs, arr⟩ := t
  cases bt <;> first
    | rfl
    | exact absurd rfl h1
    | exact absurd rfl h2

/-- Witness for C7 at a struct-typed input. -/
theorem to_rhi_vertex_format_other_invalid_witness :
    to_rhi_vertex_format ⟨BaseType.Struct, 1, []⟩ = VertexFieldFormat.Invalid :=
  to_rhi_vertex_format_other_invalid ⟨BaseType.Struct, 1, []⟩ (by decide) (by decide)

/-- C5: the Vertex Field Extractor yields exactly one `VertexField` per
reflected stage input, in declaration order, carrying the input's name and its
format-mapped type; a field mapping to Invalid is appended like any other. -/
theorem get_vertex_fields_one_per_input (vertex_shader : ReflectedShader) :
    get_vertex_fields vertex_shader =
      vertex_shader.stage_inputs.map
        (fun spirv_field => ⟨spirv_field.name, to_rhi_vertex_format spirv_field.type⟩) ∧
    (get_vertex_fields vertex_shader).length = vertex_shader.stage_inputs.length := by
  have hmap : get_vertex_fields vertex_shader =
      vertex_shader.stage_inputs.map
        (fun spirv_field => ⟨spirv_field.name, to_rhi_vertex_format spirv_field.type⟩) := by
    unfold get_vertex_fields
    rw [foldl_push_eq_append_map]
    rfl
  exact ⟨hmap, by rw [hmap, List.length_map]⟩

/-- C4: the descriptor the Binding Extractor produces has element count 1 and
the unbounded flag clear when the resource's type has no array dimension, and
element count equal to the first array dimension with the unbounded flag set
unconditionally when it has one. -/
theorem make_binding_count_unbounded (shader_stage : Nat) (resource : ReflectedResource)
    (type : DescriptorType) :
    (resource.type.array = [] →
      (make_binding shader_stage resource type).count = 1 ∧
      (make_binding shader_stage resource type).is_unbounded = false) ∧
    (∀ n rest, resource.type.array = n :: rest →
      (make_binding shader_stage resource type).count = n ∧
      (make_binding shader_stage resource type).is_unbounded = true) := by
  constructor
  · intro h
    unfold make_binding
    rw [h]
    exact ⟨rfl, rfl⟩
  · intro n rest h
    unfold make_binding
    rw [h]
    exact ⟨rfl, rfl⟩

/-- Witness for C4: a non-array sampler gives count 1 and unbounded clear; an
array of length 4 gives count 4 and unbounded set. -/
theorem make_binding_count_unbounded_witness :
    (make_binding 1 ⟨"s", 0, 0, ⟨BaseType.Sampler, 1, []⟩⟩ DescriptorType.Sampler).count = 1 ∧
    (make_binding 1 ⟨"s", 0, 0, ⟨BaseType.Sampler, 1, []⟩⟩
      DescriptorType.Sampler).is_unbounded = false ∧
    (make_binding 1 ⟨"t", 0, 1, ⟨BaseType.Image, 1, [4]⟩⟩ DescriptorType.Texture).count = 4 ∧
    (make_binding 1 ⟨"t", 0, 1, ⟨BaseType.Image, 1, [4]⟩⟩
      DescriptorType.Texture).is_unbounded = true := by
  have h1 := (make_binding_count_unbounded 1 ⟨"s", 0, 0, ⟨BaseType.Sampler, 1, []⟩⟩
    DescriptorType.Sampler).1 rfl
  have h2 := (make_binding_count_unbounded 1 ⟨"t", 0, 1, ⟨BaseType.Image, 1, [4]⟩⟩
    DescriptorType.Texture).2 4 [] rfl
  exact ⟨h1.1, h1.2, h2.1, h2.2⟩
